import Mathlib

/-!
# hostmonitor: state records, registry actors, failure classification, validation

A shallow embedding of the monitoring engine (`monitor.go`, `monitor/state.go`,
`monitor/helpers.go`, `monitor/api.go`).

Modelling conventions
* Go `uint` identifiers are `Nat`; they are only used as map keys, never in arithmetic.
* `time.Time` values are abstract instants (`Time := Int`); every call of `time.Now()`
  becomes an explicit argument of the constructor that makes it.
* `int64` latencies and `int` status codes are `Int` (only the constants `0`, `-1` and
  copies of inputs are ever stored).
* A Go map `map[K]V` is a finite partial function, embedded as `K → Option V`.
* The only implementation of the `monitorState` interface is `*httpState`, and the only
  wired implementation of `monitor` is `*httpMonitor`; the interfaces are embedded as
  those structures. Records are stored by pointer under exactly one key, so the in-place
  mutation `s.update(data)` is the replacement of the map entry by the updated value.
-/

namespace hostmonitor

/-- An instant, standing for a Go `time.Time`. -/
abbrev Time := Int

/-! ## `monitor/state.go` -/

/-- The Go struct `baseState`. -/
structure baseState where
  ID : Nat
  Alive : Bool
  Message : String
  Change : String
  Latency : Int
  LastChange : Time
  Timestamp : Time
deriving DecidableEq, Repr

/-- The Go struct `httpState`: an embedded `baseState` plus the HTTP status fields. -/
structure httpState extends baseState where
  Code : Int
  Status : String
deriving DecidableEq, Repr

/-- `newBaseState(id)`; `now₁`, `now₂` are the two `time.Now()` readings. -/
def newBaseState (id : Nat) (now₁ now₂ : Time) : baseState :=
  { ID := id, Alive := true, Message := "new", Change := "", Latency := 0,
    LastChange := now₁, Timestamp := now₂ }

/-- `newHTTPState(id)`. -/
def newHTTPState (id : Nat) (now₁ now₂ : Time) : httpState :=
  { tobaseState := newBaseState id now₁ now₂, Code := 0, Status := "" }

/-- `newBaseResultState(id, alive, message, latency, timestamp)`; `now` is `time.Now()`. -/
def newBaseResultState (id : Nat) (alive : Bool) (message : String) (latency : Int)
    (timestamp : Time) (now : Time) : baseState :=
  { ID := id, Message := message, Change := "", Alive := alive, Latency := latency,
    LastChange := now, Timestamp := timestamp }

/-- `newHTTPResultState(id, alive, message, latency, timestamp, code, status)`. -/
def newHTTPResultState (id : Nat) (alive : Bool) (message : String) (latency : Int)
    (timestamp : Time) (code : Int) (status : String) (now : Time) : httpState :=
  { tobaseState := newBaseResultState id alive message latency timestamp now,
    Code := code, Status := status }

/-- `(hs *httpState) update(newState)`, statement by statement. The receiver after the
call is the returned record. -/
def httpState.update (hs newState : httpState) : httpState :=
  -- hs.Change = ""; hs.Message = newState.message(); hs.Timestamp = newState.timestamp()
  let hs₁ : httpState :=
    { hs with Change := "", Message := newState.Message, Timestamp := newState.Timestamp }
  -- switch newState.alive()
  let hs₂ : httpState :=
    match newState.Alive with
    | true =>
      -- if !hs.Alive { LastChange, Change = "up" }
      let h : httpState :=
        if hs₁.Alive = false then
          { hs₁ with LastChange := newState.Timestamp, Change := "up" }
        else hs₁
      { h with Latency := newState.Latency, Code := newState.Code, Status := newState.Status }
    | false =>
      if hs₁.Alive = true then
        { hs₁ with LastChange := newState.Timestamp, Change := "down", Latency := -1,
                   Code := -1, Status := "" }
      else hs₁
  -- hs.Alive = newState.alive()
  { hs₂ with Alive := newState.Alive }

/-- The Go struct `stateSet`: the map from identifier to state record. -/
structure stateSet where
  Entries : Nat → Option httpState

/-- `newStateSet()`: the empty map. -/
def newStateSet : stateSet := { Entries := fun _ => none }

/-- `(st *stateSet) add(s)`: `st.Entries[s.id()] = s`. -/
def stateSet.add (st : stateSet) (s : httpState) : stateSet :=
  { Entries := fun k => if k = s.ID then some s else st.Entries k }

/-- `(st *stateSet) delete(id)`: `delete(st.Entries, id)`. -/
def stateSet.delete (st : stateSet) (id : Nat) : stateSet :=
  { Entries := fun k => if k = id then none else st.Entries k }

/-- The `update` case of the `stateManager` loop:
`if s, ok := stSet.Entries[data.id()]; ok { s.update(data) }`. -/
def stateManager.caseUpdate (stSet : stateSet) (data : httpState) : stateSet :=
  match stSet.Entries data.ID with
  | some s =>
    { Entries := fun k => if k = data.ID then some (s.update data) else stSet.Entries k }
  | none => stSet

/-- The `add` case of the `stateManager` loop: `stSet.add(data.s)`, then the
acknowledgement `data.r <- true` (the returned boolean). -/
def stateManager.caseAdd (stSet : stateSet) (s : httpState) : stateSet × Bool :=
  (stSet.add s, true)

/-- The `del` case of the `stateManager` loop: `stSet.delete(data.id)`, then the
acknowledgement `data.r <- true`. -/
def stateManager.caseDel (stSet : stateSet) (id : Nat) : stateSet × Bool :=
  (stSet.delete id, true)

/-! ## `monitor.go` -/

/-- The Go struct `baseMonitor`. `frequency` is a `time.Duration` (nanoseconds); `stopper`
is the identity of the channel made by `make(chan int)`. -/
structure baseMonitor where
  id : Nat
  frequency : Int
  stopper : Nat
deriving DecidableEq, Repr

/-- The Go struct `httpMonitor`, the implementation of the `monitor` interface that the
registration path builds. -/
structure httpMonitor extends baseMonitor where
  url : String
  timeout : Int
deriving DecidableEq, Repr

/-- `newbaseMonitor(id, frequency)`; `ch` is the channel returned by `make(chan int)`. -/
def newbaseMonitor (id : Nat) (frequency : Int) (ch : Nat) : baseMonitor :=
  { id := id, frequency := frequency, stopper := ch }

/-- `newHTTPMonitor(id, frequency, url, timeout)`. -/
def newHTTPMonitor (id : Nat) (frequency : Int) (url : String) (timeout : Int) (ch : Nat) :
    httpMonitor :=
  { tobaseMonitor := newbaseMonitor id frequency ch, url := url, timeout := timeout }

/-- Dynamic type of the error held by a `*url.Error`, as far as the inner type switch of
`errHandler` tells them apart. `OpError` carries the `Op` field of a `*net.OpError`. -/
inductive wrappedError where
  | OpError (Op : String)
  | AddrError
  | DNSError
  | other
deriving DecidableEq, Repr

/-- Dynamic type of the `error` handed to `errHandler`, as far as its outer type switch
tells them apart. For a `*url.Error`, `timeout` is what its method `Timeout()` reports and
`err` is what `Unwrap()` returns. -/
inductive transportError where
  | urlError (timeout : Bool) (err : wrappedError)
  | other
deriving DecidableEq, Repr

/-- The message computed by the two nested type switches of `errHandler`. -/
def errHandler.msg : transportError → String
  | .urlError timeout uw =>
    if timeout = true then "timeout"
    else
      match uw with
      | .OpError Op =>
        if Op = "dial" then "no such host"
        else if Op = "read" then "connection refused"
        else "OpError"
      | .AddrError => "AddrError"
      | .DNSError => "DNSError"
      | .other => "unknown error"
  | .other => "unknown error"

/-- `(bm *baseMonitor) errHandler(e, timestamp)`:
`newHTTPResultState(bm.ID(), false, msg, 0, timestamp, 0, "")`. -/
def baseMonitor.errHandler (bm : baseMonitor) (e : transportError) (timestamp : Time)
    (now : Time) : httpState :=
  newHTTPResultState bm.id false (errHandler.msg e) 0 timestamp 0 "" now

/-- `(hm *httpMonitor) respHandler(r, respTime, timestamp)` for a response with the given
status code and status text. -/
def httpMonitor.respHandler (hm : httpMonitor) (StatusCode : Int) (Status : String)
    (respTime : Int) (timestamp : Time) (now : Time) : httpState :=
  newHTTPResultState hm.id true "" respTime timestamp StatusCode Status now

/-- The Go struct `monitorSet`: the map from identifier to active monitor. -/
structure monitorSet where
  Entries : Nat → Option httpMonitor

/-- `newMonitorSet()`: the empty map. -/
def newMonitorSet : monitorSet := { Entries := fun _ => none }

/-- `(mSet *monitorSet) add(m)`: inserts and answers `true` when `m.ID()` is not a key,
answers `false` otherwise. -/
def monitorSet.add (mSet : monitorSet) (m : httpMonitor) : monitorSet × Bool :=
  match mSet.Entries m.id with
  | none => ({ Entries := fun k => if k = m.id then some m else mSet.Entries k }, true)
  | some _ => (mSet, false)

/-- The closure started by `monitorSet.delete`:
`go func() { close(m.Stopper()); delete(mSet.Entries, id) }()`, with its captured
variables. -/
structure stopTask where
  m : httpMonitor
  id : Nat
deriving DecidableEq, Repr

/-- `(mSet *monitorSet) delete(id)`: when `id` is a key, starts the removal goroutine
(returned, not run) and answers `true`; answers `false` otherwise. The map itself is not
written by the call. -/
def monitorSet.delete (mSet : monitorSet) (id : Nat) : Option stopTask × Bool :=
  match mSet.Entries id with
  | some m => (some { m := m, id := id }, true)
  | none => (none, false)

/-- The body of the removal goroutine, on the monitor map and the list of closed stopper
channels: `close(m.Stopper())` panics (`none`) on a channel that is already closed;
otherwise the channel is closed and `delete(mSet.Entries, id)` runs. -/
def stopTask.run (g : stopTask) (mSet : monitorSet) (closed : List Nat) :
    Option (monitorSet × List Nat) :=
  if g.m.stopper ∈ closed then none
  else some ({ Entries := fun k => if k = g.id then none else mSet.Entries k },
             g.m.stopper :: closed)

/-- The Go struct `addOp` with its nested `stateAddOp`: the probe and its initial state
record (the reply channels are the results of the case functions below). -/
structure addOp where
  m : httpMonitor
  s : httpState
deriving DecidableEq, Repr

/-- The Go struct `delOp` with its nested `stateDelOp`: `id` is `delOp.id`, `stId` is
`delOp.st.id`. -/
structure delOp where
  id : Nat
  stId : Nat
deriving DecidableEq, Repr

/-- Effects of the registry actor on the outside of its own map, in program order. -/
inductive effect where
  | stateAdded (id : Nat)
  | scheduled (id : Nat)
  | stateDeleted (id : Nat)
deriving DecidableEq, Repr

/-- Everything the two actors and the removal goroutines own: the monitor map of
`Manager`, the state map of `stateManager`, the removal goroutines started and not yet
run, the stopper channels closed so far, and the effects issued by `Manager`. -/
structure engine where
  mSet : monitorSet
  stSet : stateSet
  spawned : List stopTask
  closed : List Nat
  log : List effect

/-- The state right after `Manager(exit)` has returned: both maps empty. -/
def engine.init : engine :=
  { mSet := newMonitorSet, stSet := newStateSet, spawned := [], closed := [], log := [] }

/-- `(bm *baseMonitor) setTicker()`: `time.NewTicker(bm.frequency)`, which panics (`none`)
on an interval that is not positive; otherwise the ticker, known by its period. -/
def baseMonitor.setTicker (bm : baseMonitor) : Option Int :=
  if bm.frequency ≤ 0 then none else some bm.frequency

/-- `schedule(m, resQ)`: `monitorTicker := m.setTicker()` runs in the calling goroutine and
may panic (`none`); then the probe's polling loop is started. The loop calls `launchTest`
at once and on every tick; the deltas it pushes on `resQ` are the `update` events of
`engine.step`. -/
def schedule (e : engine) (m : httpMonitor) : Option engine :=
  match m.tobaseMonitor.setTicker with
  | none => none
  | some _ => some { e with log := e.log ++ [effect.scheduled m.id] }

/-- The `add` case of the `Manager` loop, up to its last statement `data.r <- ok`: the
engine when that send is reached and the boolean it sends; `none` is a panic of the
`Manager` goroutine, and with it of the process. The value received from `data.st.r` is
dropped, as in the source. -/
def Manager.caseAdd (e : engine) (data : addOp) : Option (engine × Bool) :=
  let r := e.mSet.add data.m                        -- ok := monitorSet.add(data.m)
  let e₀ : engine := { e with mSet := r.1 }
  if r.2 = true then
    -- stateAdd <- data.st; <-data.st.r
    let a := stateManager.caseAdd e₀.stSet data.s
    let e₁ : engine := { e₀ with stSet := a.1, log := e₀.log ++ [effect.stateAdded data.s.ID] }
    -- schedule(data.m, stateUpdate)
    match schedule e₁ data.m with
    | none => none
    | some e₂ => some (e₂, r.2)
  else some (e₀, r.2)

/-- The `del` case of the `Manager` loop; the boolean is what is sent on `data.r`. -/
def Manager.caseDel (e : engine) (data : delOp) : engine × Bool :=
  let r := e.mSet.delete data.id                    -- ok := monitorSet.delete(data.id)
  let e₀ : engine := { e with spawned := e.spawned ++ r.1.toList }
  if r.2 = true then
    -- stateDel <- data.st; <-data.st.r
    let d := stateManager.caseDel e₀.stSet data.stId
    ({ e₀ with stSet := d.1, log := e₀.log ++ [effect.stateDeleted data.stId] }, r.2)
  else (e₀, r.2)

/-- One scheduling decision of the running program. -/
inductive event where
  | add (data : addOp)
  | del (data : delOp)
  | update (data : httpState)
  | stop (i : Nat)
deriving DecidableEq, Repr

/-- One step of the engine: `Manager` serves an add or a delete request, `stateManager`
serves a result delta, or the `i`-th removal goroutine not yet run is run (a step that
names no such goroutine changes nothing). `none` is a panic of the process.

Serving a request is one step although other goroutines run meanwhile: a request reads
and writes the monitor map only in its first statement (`monitorSet.add`,
`monitorSet.delete`) and the state map only inside its handshake, so a removal goroutine
or a result delta that runs in the middle of a request gives the same maps as one that
runs right before or right after it. Sending the answer changes nothing in the engine, so
a run does not tell whether a later step comes before or after the caller has received
it; `Manager.addAnswered` names that instant. -/
def engine.step (e : engine) : event → Option engine
  | .add data =>
    match Manager.caseAdd e data with
    | none => none
    | some r => some r.1
  | .del data => some (Manager.caseDel e data).1
  | .update data => some { e with stSet := stateManager.caseUpdate e.stSet data }
  | .stop i =>
    match e.spawned[i]? with
    | none => some e
    | some g =>
      match g.run e.mSet e.closed with
      | none => none
      | some r => some { e with mSet := r.1, closed := r.2, spawned := e.spawned.eraseIdx i }

/-- The engine after a finite sequence of steps. -/
def engine.run (e : engine) : List event → Option engine
  | [] => some e
  | ev :: evs =>
    match e.step ev with
    | none => none
    | some e₁ => e₁.run evs

/-! ## `monitor/helpers.go`, `monitor/api.go` -/

/-- A value that `json.Unmarshal` stores in an `interface{}`. A JSON number is decoded to
a finite `float64`; it is embedded as the rational it denotes, on which the comparisons
with the constants `0`, `1` and `60` made by `validArgs` agree with those of Go. The
contents of arrays and objects are never inspected. -/
inductive jsonValue where
  | number (x : ℚ)
  | string (s : String)
  | bool (b : Bool)
  | null
  | array
  | object
deriving DecidableEq

/-- The errors built by `fmt.Errorf` in `validArgs`, one constructor per format string,
with the value that is formatted. -/
inductive argError where
  | idNegative (id : ℚ)
  | idNotNumerical
  | frequencyMinimum (frequency : ℚ)
  | frequencyNotNumerical
  | timeoutRange (timeout : ℚ)
  | timeoutNotNumerical
  | urlNotString
  | missing (k : String)
deriving DecidableEq

/-- The two maps returned by `validArgs`: `numArgs` and `strArgs`. -/
structure validated where
  numArgs : String → Option ℚ
  strArgs : String → Option String

/-- The `for _, k := range required` loop of `validArgs` on the remaining required names,
with the two maps filled so far. -/
def validArgs.loop (args : String → Option jsonValue) :
    List String → validated → Except argError validated
  | [], acc => .ok acc
  | k :: ks, acc =>
    match args k with
    | none => .error (.missing k)
    | some v =>
      if k = "id" then
        match v with
        | .number id =>
          if id < 0 then .error (.idNegative id)
          else validArgs.loop args ks
            { acc with numArgs := fun j => if j = k then some id else acc.numArgs j }
        | _ => .error .idNotNumerical
      else if k = "frequency" then
        match v with
        | .number frequency =>
          if frequency < 60 then .error (.frequencyMinimum frequency)
          else validArgs.loop args ks
            { acc with numArgs := fun j => if j = "frequency" then some frequency
                                           else acc.numArgs j }
        | _ => .error .frequencyNotNumerical
      else if k = "timeout" then
        match v with
        | .number timeout =>
          if timeout < 1 ∨ timeout > 60 then .error (.timeoutRange timeout)
          else validArgs.loop args ks
            { acc with numArgs := fun j => if j = "timeout" then some timeout
                                           else acc.numArgs j }
        | _ => .error .timeoutNotNumerical
      else if k = "url" then
        match v with
        | .string url =>
          validArgs.loop args ks
            { acc with strArgs := fun j => if j = "url" then some url else acc.strArgs j }
        | _ => .error .urlNotString
      else validArgs.loop args ks acc

/-- `validArgs(args, required)`: the loop started on two empty maps. -/
def validArgs (args : String → Option jsonValue) (required : List String) :
    Except argError validated :=
  validArgs.loop args required { numArgs := fun _ => none, strArgs := fun _ => none }

/-- Reading the wrap-around of a product of `int64` values. -/
def wrapInt64 (x : Int) : Int := (x + 2 ^ 63) % 2 ^ 64 - 2 ^ 63

/-- `time.Duration(x) * time.Second`; `toInt64` is the conversion of a `float64` to
`int64`. -/
def seconds (toInt64 : ℚ → Int) (x : ℚ) : Int := wrapInt64 (toInt64 x * 1000000000)

/-- What `addHTTPMonitor` does with the registry: it answers the client without sending
anything on `add.ch`, or it sends an `addOp`, or (for a method that is neither "GET" nor
"POST") it sends an `addOp` whose monitor and state are nil. -/
inductive submission where
  | rejected
  | sent (a : addOp)
  | sentNil
deriving DecidableEq

/-- `(add *AddPipe) addHTTPMonitor` from the decoded request body `b` and the route
parameter `method`, up to and including `add.ch <- a`. `toUint` and `toInt64` are the
conversions of a `float64` to `uint` and `int64`, `ch` is the channel made for the new
monitor and `now₁`, `now₂` the clock readings of `newHTTPState`. A value missing from a
returned map reads as the zero value, as in Go. -/
def addHTTPMonitor (toUint : ℚ → Nat) (toInt64 : ℚ → Int) (ch : Nat) (now₁ now₂ : Time)
    (b : String → Option jsonValue) (method : String) : submission :=
  match validArgs b ["id", "url", "frequency", "timeout"] with
  | .error _ => .rejected
  | .ok v =>
    let id := toUint ((v.numArgs "id").getD 0)
    let freq := seconds toInt64 ((v.numArgs "frequency").getD 0)
    let timeout := seconds toInt64 ((v.numArgs "timeout").getD 0)
    let url := (v.strArgs "url").getD ""
    if method = "GET" then
      .sent { m := newHTTPMonitor id freq url timeout ch, s := newHTTPState id now₁ now₂ }
    else if method = "POST" then .rejected
    else .sentNil

/-- `(del *DelPipe) deleteMonitor` from the decoded request body, up to and including
`del.ch <- d`: `none` when validation fails, otherwise the `delOp` sent. -/
def deleteMonitor (toUint : ℚ → Nat) (b : String → Option jsonValue) : Option delOp :=
  match validArgs b ["id"] with
  | .error _ => none
  | .ok v =>
    let id := toUint ((v.numArgs "id").getD 0)
    some { id := id, stId := id }

/-! ## Concrete requests used to evaluate the engine -/

/-- The add request that `addHTTPMonitor` sends for id=1, url="http://example.test",
frequency=60, timeout=5 (durations in nanoseconds). -/
def probe1 : addOp :=
  { m := newHTTPMonitor 1 60000000000 "http://example.test" 5000000000 0,
    s := newHTTPState 1 0 0 }

/-- The delete request that `deleteMonitor` sends for id=1. -/
def delete1 : delOp := { id := 1, stId := 1 }

/-- The engine that holds probe 1 and nothing else: what the freshly started engine
becomes when it has served `probe1`. -/
def holding1 : engine :=
  { mSet := (newMonitorSet.add probe1.m).1, stSet := newStateSet.add probe1.s,
    spawned := [], closed := [],
    log := [effect.stateAdded 1, effect.scheduled 1] }

/-- A decoded request body with id=2, a url, frequency=30 and timeout=5. -/
def bodyFrequency30 : String → Option jsonValue := fun k =>
  if k = "id" then some (.number 2)
  else if k = "url" then some (.string "http://example.test")
  else if k = "frequency" then some (.number 30)
  else if k = "timeout" then some (.number 5)
  else none

/-- A decoded request body with id=1, a url, frequency=60 and timeout=5. -/
def bodyValid : String → Option jsonValue := fun k =>
  if k = "id" then some (.number 1)
  else if k = "url" then some (.string "http://example.test")
  else if k = "frequency" then some (.number 60)
  else if k = "timeout" then some (.number 5)
  else none

/-! ## Theorems: the transition rule of `httpState.update` -/

/-- C1. Transition correctness: a record that is alive, updated with a delta that is not
alive, has change "down", alive false, lastChange equal to the delta's timestamp,
latency -1, code -1 and status ""; a second not-alive delta applied to the result leaves
change "" and alive false and does not move lastChange off the first delta's timestamp. -/
theorem update_down_then_down (hs d₁ d₂ : httpState) (h₀ : hs.Alive = true)
    (h₁ : d₁.Alive = false) (h₂ : d₂.Alive = false) :
    (hs.update d₁).Change = "down" ∧ (hs.update d₁).Alive = false ∧
    (hs.update d₁).LastChange = d₁.Timestamp ∧ (hs.update d₁).Latency = -1 ∧
    (hs.update d₁).Code = -1 ∧ (hs.update d₁).Status = "" ∧
    ((hs.update d₁).update d₂).Change = "" ∧
    ((hs.update d₁).update d₂).LastChange = d₁.Timestamp ∧
    ((hs.update d₁).update d₂).Alive = false := by
  simp [httpState.update, h₀, h₁, h₂]

/-- The statement of `update_down_then_down` at a fresh record of probe 1 hit by two
failure deltas built by `errHandler`. -/
theorem update_down_then_down_witness :
    ((newHTTPState 1 10 10).update
        ((newbaseMonitor 1 60 0).errHandler (.urlError false (.OpError "dial")) 20 21)).Change
      = "down" ∧
    (((newHTTPState 1 10 10).update
        ((newbaseMonitor 1 60 0).errHandler (.urlError false (.OpError "dial")) 20 21)).update
        ((newbaseMonitor 1 60 0).errHandler (.urlError true .other) 30 31)).LastChange = 20 :=
  have h := update_down_then_down (newHTTPState 1 10 10)
    ((newbaseMonitor 1 60 0).errHandler (.urlError false (.OpError "dial")) 20 21)
    ((newbaseMonitor 1 60 0).errHandler (.urlError true .other) 30 31) rfl rfl rfl
  ⟨h.1, h.2.2.2.2.2.2.2.1⟩

/-- C7. The change flag reflects only the most recent update: whatever the record held
before, after `update` its change is "up" exactly when the record was not alive and the
delta is alive, "down" exactly when the record was alive and the delta is not, and ""
on every update that is not a transition. -/
theorem update_change_flag (hs d : httpState) :
    ((hs.update d).Change = "up" ↔ (hs.Alive = false ∧ d.Alive = true)) ∧
    ((hs.update d).Change = "down" ↔ (hs.Alive = true ∧ d.Alive = false)) ∧
    (hs.Alive = d.Alive → (hs.update d).Change = "") := by
  cases ha : hs.Alive <;> cases hd : d.Alive <;> simp [httpState.update, ha, hd]

/-- C8. The alive flag and lastChange move together: `update` assigns the delta's
timestamp to lastChange when the alive flag flips and leaves lastChange as it was when it
does not, and alive after the update is always the delta's alive. -/
theorem update_lastChange_iff_flip (hs d : httpState) :
    (hs.update d).LastChange = (if hs.Alive ≠ d.Alive then d.Timestamp else hs.LastChange) ∧
    (hs.Alive ≠ d.Alive → (hs.update d).LastChange = d.Timestamp) ∧
    (hs.Alive = d.Alive → (hs.update d).LastChange = hs.LastChange) ∧
    ((hs.update d).LastChange ≠ hs.LastChange → hs.Alive ≠ d.Alive) ∧
    (hs.update d).Alive = d.Alive := by
  cases ha : hs.Alive <;> cases hd : d.Alive <;> simp [httpState.update, ha, hd]

/-! ## Theorems: the registry actor and the state actor -/

/-- C2. A registry request that fails mutates nothing: an add whose identifier is
already a key of the monitor map is answered false, a delete whose identifier is not a
key of the monitor map is answered false, and in both cases the monitor map, the state
map and everything else the engine holds are what they were before the request. -/
theorem failed_request_mutates_nothing (e : engine) :
    (∀ data : addOp, e.mSet.Entries data.m.id ≠ none →
      Manager.caseAdd e data = some (e, false)) ∧
    (∀ data : delOp, e.mSet.Entries data.id = none → Manager.caseDel e data = (e, false)) := by
  constructor
  · intro data h
    cases hm : e.mSet.Entries data.m.id with
    | none => exact absurd hm h
    | some m₀ => simp [Manager.caseAdd, monitorSet.add, hm]
  · intro data h
    simp [Manager.caseDel, monitorSet.delete, h]

/-- The statement of `failed_request_mutates_nothing` on the engine that holds probe 1:
adding probe 1 again and deleting the unknown probe 2 both answer false and return the
engine they were given. -/
theorem failed_request_mutates_nothing_witness :
    Manager.caseAdd engine.init probe1 = some (holding1, true) ∧
    Manager.caseAdd holding1
        { m := newHTTPMonitor 1 90 "http://other.test" 7 1, s := newHTTPState 1 3 3 }
      = some (holding1, false) ∧
    Manager.caseDel holding1 { id := 2, stId := 2 } = (holding1, false) :=
  ⟨rfl, (failed_request_mutates_nothing holding1).1 _ (by decide),
   (failed_request_mutates_nothing holding1).2 _ (by decide)⟩

/-- The update rule never touches the identifier of a record. -/
theorem update_keeps_ID (hs d : httpState) : (hs.update d).ID = hs.ID := by
  cases ha : hs.Alive <;> cases hd : d.Alive <;> simp [httpState.update, ha, hd]

/-- A frequency that passes validation can still give a polling interval that is not
positive: 9223372037 seconds wrap around in `int64` nanoseconds. -/
theorem seconds_wraps_negative (toInt64 : ℚ → Int) (h : toInt64 9223372037 = 9223372037) :
    seconds toInt64 9223372037 < 0 := by
  rw [seconds, h]
  decide

/-- C5. Stale-update immunity: a delta whose identifier is not a key of the state map
leaves the map as it is; after `delete(X)`, a delta for X leaves the map without a record
for X and every other record as it was before the delete; and the update step never
panics (it is a total function, and the engine step that serves it always yields a
state). -/
theorem stale_update_discarded (stSet : stateSet) (data : httpState) :
    (stSet.Entries data.ID = none → stateManager.caseUpdate stSet data = stSet) ∧
    stateManager.caseUpdate (stateManager.caseDel stSet data.ID).1 data
      = (stateManager.caseDel stSet data.ID).1 ∧
    (stateManager.caseUpdate (stateManager.caseDel stSet data.ID).1 data).Entries data.ID
      = none ∧
    (∀ k, k ≠ data.ID →
      (stateManager.caseUpdate (stateManager.caseDel stSet data.ID).1 data).Entries k
        = stSet.Entries k) ∧
    (∀ e : engine, e.step (.update data) ≠ none) := by
  have hdel : stateManager.caseUpdate (stateManager.caseDel stSet data.ID).1 data
      = (stateManager.caseDel stSet data.ID).1 := by
    simp [stateManager.caseUpdate, stateManager.caseDel, stateSet.delete]
  refine ⟨?_, hdel, ?_, ?_, ?_⟩
  · intro h
    simp [stateManager.caseUpdate, h]
  · rw [hdel]; simp [stateManager.caseDel, stateSet.delete]
  · intro k hk
    rw [hdel]; simp [stateManager.caseDel, stateSet.delete, hk]
  · intro e
    simp [engine.step]

/-- The statement of `stale_update_discarded` for a success delta of probe 1 arriving
at the empty state map. -/
theorem stale_update_discarded_witness :
    stateManager.caseUpdate newStateSet
        ((newHTTPMonitor 1 60 "http://example.test" 5 0).respHandler 200 "200 OK" 12 40 41)
      = newStateSet :=
  (stale_update_discarded newStateSet
    ((newHTTPMonitor 1 60 "http://example.test" 5 0).respHandler 200 "200 OK" 12 40 41)).1 rfl

/-- C6. Failure classification: `errHandler(e, t)` is a delta with the probe's id, alive
false and timestamp t; its message is "timeout" for a URL error that reports a timeout,
and otherwise "no such host" for a wrapped network operation error of the dial phase,
"connection refused" for one of the read phase, "OpError" for one of any other phase,
"AddrError" and "DNSError" for those wrapped errors, and "unknown error" for a URL error
wrapping anything else and for every error that is not a URL error. -/
theorem errHandler_classification (bm : baseMonitor) (t now : Time) :
    (∀ e, (bm.errHandler e t now).ID = bm.id ∧ (bm.errHandler e t now).Alive = false ∧
          (bm.errHandler e t now).Timestamp = t) ∧
    (∀ uw, (bm.errHandler (.urlError true uw) t now).Message = "timeout") ∧
    (bm.errHandler (.urlError false (.OpError "dial")) t now).Message = "no such host" ∧
    (bm.errHandler (.urlError false (.OpError "read")) t now).Message
      = "connection refused" ∧
    (∀ Op, Op ≠ "dial" → Op ≠ "read" →
      (bm.errHandler (.urlError false (.OpError Op)) t now).Message = "OpError") ∧
    (bm.errHandler (.urlError false .AddrError) t now).Message = "AddrError" ∧
    (bm.errHandler (.urlError false .DNSError) t now).Message = "DNSError" ∧
    (bm.errHandler (.urlError false .other) t now).Message = "unknown error" ∧
    (bm.errHandler .other t now).Message = "unknown error" := by
  refine ⟨fun e => ⟨rfl, rfl, rfl⟩, fun uw => ?_, ?_, ?_, fun Op h₁ h₂ => ?_, ?_, ?_, ?_, ?_⟩ <;>
    simp [baseMonitor.errHandler, newHTTPResultState, newBaseResultState, errHandler.msg, *]

/-- C3, evaluated. On the freshly started engine, adding probe 1 is answered true and
deleting it is answered true; a second delete served before the removal goroutine of the
first has run is answered true again, not false, because the entry is still in the
monitor map; and when the two removal goroutines then run, the second one closes a
closed channel and the process panics. -/
theorem second_delete_before_removal_answers_true :
    Manager.caseAdd engine.init probe1 = some (holding1, true) ∧
    (Manager.caseDel holding1 delete1).2 = true ∧
    (Manager.caseDel (Manager.caseDel holding1 delete1).1 delete1).2 = true ∧
    (Manager.caseDel holding1 delete1).1.mSet.Entries 1 = some probe1.m ∧
    engine.init.run [.add probe1, .del delete1, .del delete1, .stop 0, .stop 0] = none := by
  refine ⟨rfl, rfl, rfl, rfl, ?_⟩
  rfl

/-- C10, evaluated. From the empty maps, after the add of probe 1 and the delete of
probe 1 have both been served and answered, the monitor map still has the key 1 and the
state map does not: the two key sets differ until the removal goroutine has run. -/
theorem maps_differ_before_removal_runs :
    ∃ e, engine.init.run [.add probe1, .del delete1] = some e ∧
      e.mSet.Entries 1 = some probe1.m ∧ e.stSet.Entries 1 = none :=
  ⟨_, rfl, rfl, rfl⟩


/-! ## Theorems: validation of a registration request -/

/-- The four-field validation fails exactly on the inputs listed: a missing field, an id
that is not a number or is negative, a url that is not a string, a frequency that is not
a number or is below 60, a timeout that is not a number or is outside [1, 60]. -/
theorem validArgs_error_iff (args : String → Option jsonValue) :
    (∃ err, validArgs args ["id", "url", "frequency", "timeout"] = .error err) ↔
      (args "id" = none ∨ args "url" = none ∨ args "frequency" = none ∨
       args "timeout" = none ∨
       (∀ x, args "id" ≠ some (.number x)) ∨ (∃ x, args "id" = some (.number x) ∧ x < 0) ∨
       (∀ u, args "url" ≠ some (.string u)) ∨
       (∀ x, args "frequency" ≠ some (.number x)) ∨
       (∃ x, args "frequency" = some (.number x) ∧ x < 60) ∨
       (∀ x, args "timeout" ≠ some (.number x)) ∨
       (∃ x, args "timeout" = some (.number x) ∧ (x < 1 ∨ 60 < x))) := by
  rcases hid : args "id" with _ | (id | _ | _ | _ | _ | _) <;>
    try (simp [validArgs, validArgs.loop, hid]; done)
  by_cases hneg : id < 0
  · simp [validArgs, validArgs.loop, hid, hneg]
  rcases hurl : args "url" with _ | (_ | url | _ | _ | _ | _) <;>
    try (simp [validArgs, validArgs.loop, hid, hneg, hurl]; done)
  rcases hf : args "frequency" with _ | (f | _ | _ | _ | _ | _) <;>
    try (simp [validArgs, validArgs.loop, hid, hneg, hurl, hf]; done)
  by_cases hlow : f < 60
  · simp [validArgs, validArgs.loop, hid, hneg, hurl, hf, hlow]
  rcases ht : args "timeout" with _ | (t | _ | _ | _ | _ | _) <;>
    try (simp [validArgs, validArgs.loop, hid, hneg, hurl, hf, hlow, ht]; done)
  by_cases hr : t < 1 ∨ t > 60
  · simp [validArgs, validArgs.loop, hid, hneg, hurl, hf, hlow, ht, hr]
  · simp [validArgs, validArgs.loop, hid, hneg, hurl, hf, hlow, ht, hr]

/-- When the four-field validation succeeds, the four fields were a number, a string and
two numbers, and the returned maps hold exactly those values. -/
theorem validArgs_ok_fields (args : String → Option jsonValue) (v : validated)
    (hv : validArgs args ["id", "url", "frequency", "timeout"] = .ok v) :
    ∃ id url f t, args "id" = some (.number id) ∧ args "url" = some (.string url) ∧
      args "frequency" = some (.number f) ∧ args "timeout" = some (.number t) ∧
      v.numArgs "id" = some id ∧ v.numArgs "frequency" = some f ∧
      v.numArgs "timeout" = some t ∧ v.strArgs "url" = some url := by
  revert hv
  rcases hid : args "id" with _ | (id | _ | _ | _ | _ | _) <;>
    try (simp [validArgs, validArgs.loop, hid]; done)
  by_cases hneg : id < 0
  · simp [validArgs, validArgs.loop, hid, hneg]
  rcases hurl : args "url" with _ | (_ | url | _ | _ | _ | _) <;>
    try (simp [validArgs, validArgs.loop, hid, hneg, hurl]; done)
  rcases hf : args "frequency" with _ | (f | _ | _ | _ | _ | _) <;>
    try (simp [validArgs, validArgs.loop, hid, hneg, hurl, hf]; done)
  by_cases hlow : f < 60
  · simp [validArgs, validArgs.loop, hid, hneg, hurl, hf, hlow]
  rcases ht : args "timeout" with _ | (t | _ | _ | _ | _ | _) <;>
    try (simp [validArgs, validArgs.loop, hid, hneg, hurl, hf, hlow, ht]; done)
  by_cases hr : t < 1 ∨ t > 60
  · simp [validArgs, validArgs.loop, hid, hneg, hurl, hf, hlow, ht, hr]
  · simp only [validArgs, validArgs.loop, hid, hneg, hurl, hf, hlow, ht, hr]
    simp
    intro h
    subst h
    simp

/-- C9. Registration input validation with required fields id, url, frequency, timeout:
`validArgs` returns an error exactly when a required field is missing, id is not a number
or is negative, url is not a string, frequency is not a number or is below 60, or timeout
is not a number or lies outside [1, 60]; when it returns no error, id, frequency and
timeout are stored unchanged in the numeric map and url in the string map; a request
with frequency=30 is rejected and `addHTTPMonitor` sends nothing to the registry. -/
theorem validArgs_registration (args : String → Option jsonValue) :
    ((∃ err, validArgs args ["id", "url", "frequency", "timeout"] = .error err) ↔
      (args "id" = none ∨ args "url" = none ∨ args "frequency" = none ∨
       args "timeout" = none ∨
       (∀ x, args "id" ≠ some (.number x)) ∨ (∃ x, args "id" = some (.number x) ∧ x < 0) ∨
       (∀ u, args "url" ≠ some (.string u)) ∨
       (∀ x, args "frequency" ≠ some (.number x)) ∨
       (∃ x, args "frequency" = some (.number x) ∧ x < 60) ∨
       (∀ x, args "timeout" ≠ some (.number x)) ∨
       (∃ x, args "timeout" = some (.number x) ∧ (x < 1 ∨ 60 < x)))) ∧
    ((∀ err, validArgs args ["id", "url", "frequency", "timeout"] ≠ .error err) →
      ∃ v id url f t, validArgs args ["id", "url", "frequency", "timeout"] = .ok v ∧
        args "id" = some (.number id) ∧ args "url" = some (.string url) ∧
        args "frequency" = some (.number f) ∧ args "timeout" = some (.number t) ∧
        v.numArgs "id" = some id ∧ v.numArgs "frequency" = some f ∧
        v.numArgs "timeout" = some t ∧ v.strArgs "url" = some url) ∧
    (args "frequency" = some (.number 30) →
      (∃ err, validArgs args ["id", "url", "frequency", "timeout"] = .error err) ∧
      ∀ (toUint : ℚ → Nat) (toInt64 : ℚ → Int) (ch : Nat) (now₁ now₂ : Time)
        (method : String),
        addHTTPMonitor toUint toInt64 ch now₁ now₂ args method = submission.rejected) := by
  refine ⟨validArgs_error_iff args, ?_, ?_⟩
  · intro hne
    cases hv : validArgs args ["id", "url", "frequency", "timeout"] with
    | error err => exact absurd hv (hne err)
    | ok v =>
      obtain ⟨id, url, f, t, h⟩ := validArgs_ok_fields args v hv
      exact ⟨v, id, url, f, t, rfl, h⟩
  · intro h30
    have herr : ∃ err, validArgs args ["id", "url", "frequency", "timeout"] = .error err :=
      (validArgs_error_iff args).2
        (Or.inr (Or.inr (Or.inr (Or.inr (Or.inr (Or.inr (Or.inr (Or.inr (Or.inl
          ⟨30, h30, by norm_num⟩)))))))))
    refine ⟨herr, ?_⟩
    obtain ⟨err, herr⟩ := herr
    intro toUint toInt64 ch now₁ now₂ method
    simp [addHTTPMonitor, herr]

/-- The statement of `validArgs_registration` at the request body id=2, frequency=30:
validation fails and nothing is sent to the registry. -/
theorem validArgs_registration_witness :
    (∃ err, validArgs bodyFrequency30 ["id", "url", "frequency", "timeout"] = .error err) ∧
    addHTTPMonitor (fun x => x.floor.toNat) (fun x => x.floor) 0 0 0 bodyFrequency30 "GET"
      = submission.rejected :=
  have h := (validArgs_registration bodyFrequency30).2.2 rfl
  ⟨h.1, h.2 _ _ 0 0 0 "GET"⟩


/-- The four-field validation accepts the body id=1, frequency=60, timeout=5 and
`addHTTPMonitor` then sends an add request whose probe and state record both carry the
identifier computed from the id field. -/
theorem addHTTPMonitor_sends_valid_body (toUint : ℚ → Nat) (toInt64 : ℚ → Int) :
    ∃ a, addHTTPMonitor toUint toInt64 0 0 0 bodyValid "GET" = submission.sent a ∧
      a.m.id = toUint 1 ∧ a.s.ID = toUint 1 := by
  have h₁ : ¬ ((1 : ℚ) < 0) := by norm_num
  have h₂ : ¬ ((60 : ℚ) < 5) := by norm_num
  simp [addHTTPMonitor, validArgs, validArgs.loop, bodyValid, newHTTPMonitor,
    newbaseMonitor, newHTTPState, newBaseState, h₁, h₂]

/-! ## Further facts about the registry: what holds around the removal goroutine -/

/-- Adding a probe whose identifier is not active, with a positive polling interval, is
answered true and deleting it is answered true; once the removal goroutine started by
that delete has run (the probe's stopper channel not having been closed before), a
further delete is answered false. -/
theorem delete_after_removal_ran_answers_false (e : engine) (data : addOp)
    (h : e.mSet.Entries data.m.id = none) (hf : 0 < data.m.frequency)
    (hfresh : data.m.stopper ∉ e.closed) :
    ∃ e₁, Manager.caseAdd e data = some (e₁, true) ∧
      (Manager.caseDel e₁ { id := data.m.id, stId := data.s.ID }).2 = true ∧
      ∃ e₃, (Manager.caseDel e₁ { id := data.m.id, stId := data.s.ID }).1.step
                (.stop e.spawned.length) = some e₃ ∧
            (Manager.caseDel e₃ { id := data.m.id, stId := data.s.ID }).2 = false := by
  have hf₁ : ¬ data.m.frequency ≤ 0 := not_le.mpr hf
  simp [Manager.caseAdd, Manager.caseDel, monitorSet.add, monitorSet.delete, h, schedule,
    baseMonitor.setTicker, hf₁, stateManager.caseAdd, stateManager.caseDel, engine.step,
    stopTask.run, hfresh]

/-- One step of the engine keeps every state record under the key equal to its id. -/
theorem step_keeps_keys (e e₁ : engine) (ev : event)
    (hk : ∀ k r, e.stSet.Entries k = some r → r.ID = k) (hs : e.step ev = some e₁) :
    ∀ k r, e₁.stSet.Entries k = some r → r.ID = k := by
  intro k r hr
  cases ev with
  | add data =>
    cases hm : e.mSet.Entries data.m.id with
    | none =>
      by_cases hf : data.m.frequency ≤ 0
      · simp [engine.step, Manager.caseAdd, monitorSet.add, hm, schedule,
          baseMonitor.setTicker, hf] at hs
      · simp [engine.step, Manager.caseAdd, monitorSet.add, hm, schedule,
          baseMonitor.setTicker, hf, stateManager.caseAdd, stateSet.add] at hs
        subst hs
        by_cases hkk : k = data.s.ID
        · simp [hkk] at hr
          rw [← hr, hkk]
        · simp [hkk] at hr
          exact hk k r hr
    | some m₀ =>
      simp [engine.step, Manager.caseAdd, monitorSet.add, hm] at hs
      subst hs
      exact hk k r hr
  | del data =>
    simp only [engine.step, Option.some.injEq] at hs
    subst hs
    cases hm : e.mSet.Entries data.id with
    | none =>
      simp only [Manager.caseDel, monitorSet.delete, hm] at hr
      exact hk k r (by simpa using hr)
    | some m₀ =>
      simp only [Manager.caseDel, monitorSet.delete, hm, stateManager.caseDel,
        stateSet.delete] at hr
      by_cases hkk : k = data.stId
      · simp [hkk] at hr
      · simp [hkk] at hr
        exact hk k r hr
  | update data =>
    simp only [engine.step, Option.some.injEq] at hs
    subst hs
    cases hd : e.stSet.Entries data.ID with
    | none =>
      simp only [stateManager.caseUpdate, hd] at hr
      exact hk k r hr
    | some s =>
      simp only [stateManager.caseUpdate, hd] at hr
      by_cases hkk : k = data.ID
      · simp [hkk] at hr
        rw [← hr, update_keeps_ID, hkk]
        exact hk _ _ hd
      · simp [hkk] at hr
        exact hk k r hr
  | stop i =>
    simp only [engine.step] at hs
    cases hg : e.spawned[i]? with
    | none =>
      simp [hg] at hs
      subst hs
      exact hk k r hr
    | some g =>
      cases hrun : g.run e.mSet e.closed with
      | none => simp [hg, hrun] at hs
      | some p =>
        simp [hg, hrun] at hs
        subst hs
        exact hk k r hr

/-- After every finite sequence of adds, deletes, updates and removal-goroutine runs
from the empty maps that does not panic, every state record is stored under the key
equal to its own id. -/
theorem run_keeps_keys (evs : List event) :
    ∀ e e₁ : engine, (∀ k r, e.stSet.Entries k = some r → r.ID = k) →
      e.run evs = some e₁ → ∀ k r, e₁.stSet.Entries k = some r → r.ID = k := by
  induction evs with
  | nil =>
    intro e e₁ hk hrun
    simp only [engine.run, Option.some.injEq] at hrun
    subst hrun
    exact hk
  | cons ev evs ih =>
    intro e e₁ hk hrun
    cases hs : e.step ev with
    | none => simp [engine.run, hs] at hrun
    | some e₂ =>
      simp only [engine.run, hs] at hrun
      exact ih e₂ e₁ (step_keeps_keys e e₂ ev hk hs) hrun


/-- When no removal goroutine is outstanding and the two maps have the same keys, they
still have the same keys after an add whose probe and state record share their
identifier, after a result delta, and after a delete followed by the run of the removal
goroutine it started. -/
theorem same_keys_when_removal_runs_first (e : engine) (hsp : e.spawned = [])
    (hc : ∀ k, e.mSet.Entries k = none ↔ e.stSet.Entries k = none) :
    (∀ (data : addOp) (e₁ : engine) (ok : Bool), data.m.id = data.s.ID →
      Manager.caseAdd e data = some (e₁, ok) →
      ∀ k, e₁.mSet.Entries k = none ↔ e₁.stSet.Entries k = none) ∧
    (∀ data : httpState,
      ∀ k, e.mSet.Entries k = none ↔ (stateManager.caseUpdate e.stSet data).Entries k = none) ∧
    (∀ id e₁, (Manager.caseDel e { id := id, stId := id }).1.step (.stop 0) = some e₁ →
      e₁.spawned = [] ∧ ∀ k, e₁.mSet.Entries k = none ↔ e₁.stSet.Entries k = none) := by
  refine ⟨?_, ?_, ?_⟩
  · intro data e₁ ok hid hadd k
    cases hm : e.mSet.Entries data.m.id with
    | some m₀ =>
      simp [Manager.caseAdd, monitorSet.add, hm] at hadd
      rw [← hadd.1]
      exact hc k
    | none =>
      by_cases hf : data.m.frequency ≤ 0
      · simp [Manager.caseAdd, monitorSet.add, hm, schedule, baseMonitor.setTicker, hf]
          at hadd
      · simp [Manager.caseAdd, monitorSet.add, hm, schedule, baseMonitor.setTicker, hf,
          stateManager.caseAdd, stateSet.add] at hadd
        rw [← hadd.1]
        by_cases hk : k = data.s.ID
        · simp [hk, ← hid]
        · have hk₁ : ¬ k = data.m.id := by rw [hid]; exact hk
          simpa [hk, hk₁] using hc k
  · intro data k
    cases hd : e.stSet.Entries data.ID with
    | none => simpa [stateManager.caseUpdate, hd] using hc k
    | some s =>
      by_cases hk : k = data.ID
      · have := hc data.ID
        simp [stateManager.caseUpdate, hd, hk] at this ⊢
        exact this
      · simpa [stateManager.caseUpdate, hd, hk] using hc k
  · intro id e₁ hstep
    cases hm : e.mSet.Entries id with
    | none =>
      simp [Manager.caseDel, monitorSet.delete, hm, engine.step, hsp] at hstep
      subst hstep
      exact ⟨rfl, hc⟩
    | some m₀ =>
      by_cases hcl : m₀.stopper ∈ e.closed
      · simp [Manager.caseDel, monitorSet.delete, hm, engine.step, hsp, stopTask.run,
          stateManager.caseDel, hcl] at hstep
      · simp [Manager.caseDel, monitorSet.delete, hm, engine.step, hsp, stopTask.run,
          stateManager.caseDel, stateSet.delete, hcl] at hstep
        subst hstep
        refine ⟨by simp, fun k => ?_⟩
        by_cases hk : k = id
        · simp [hk]
        · simpa [hk] using hc k

/-- From the empty maps, every run that does not panic keeps every state record under
the key equal to its own id. -/
theorem init_run_keeps_keys (evs : List event) (e : engine)
    (hrun : engine.init.run evs = some e) :
    ∀ k r, e.stSet.Entries k = some r → r.ID = k :=
  run_keeps_keys evs engine.init e (fun k r h => by simp [engine.init, newStateSet] at h) hrun

end hostmonitor
